import Mathlib

/-!
# GroveMusic pipeline worker — verification development

Shallow embedding of `src/workers/pipeline/src/index.ts` (the playlist
generation pipeline Durable Object, the rate-limiter Durable Object and the
scoring/curation helpers), together with theorems settling the frozen claims
about the natural-language specification.

Conventions of the embedding:
* JavaScript numbers used for exact integer arithmetic are `Nat`/`Int`;
  fractional arithmetic on stored quantities (rate-limiter tokens, curation
  quotas, overall scores as compared and rounded) is `ℚ`; transcendental
  scoring formulas (`Math.exp`, `Math.log10`) are modelled over `ℝ`.
* `undefined`/optional fields are `Option`; JS falsiness of a numeric field
  (`!playcount` is true for `undefined` and `0`) is modelled explicitly at
  each use site.
* Fallible `await`ed operations are parameters of type `Except String α`
  (the thrown message), or an explicit failure-point oracle where the claim
  quantifies over which operation of a `try` block throws.
* A JS `Map` is an association list unique in its keys, insertion order
  preserved (`Map.set` on an existing key overwrites in place).
-/

namespace GroveMusic

/-- Pipeline status enum (`PipelineStatus` in the source). -/
inductive PStatus
  | pending
  | resolving
  | enriching
  | generating
  | scoring
  | curating
  | explaining
  | complete
  | failed
deriving DecidableEq, Repr

/-- Typed pipeline error (`PipelineState.error` payload in the source). -/
structure PError where
  code : String
  message : String
  stage : PStatus
  retryable : Bool
deriving DecidableEq, Repr

/-- Popularity category of a scored track. -/
inductive Category
  | popular
  | deepCut
  | hiddenGem
deriving DecidableEq, Repr

/--
`categorizeByPopularity` (source lines 531–538).  `if (!playcount)` is true
in JS when `playcount` is `undefined` or `0`, hence the `none`/`some 0`
branches returning `deep-cut`.
-/
def categorizeByPopularity (playcount : Option ℕ) : Category :=
  match playcount with
  | none => .deepCut
  | some pc =>
    if pc = 0 then .deepCut
    else if 1000000 < pc then .popular
    else if 100000 < pc then .deepCut
    else .hiddenGem

/-- A tag attached to a track (`Tag` in the source: name, frequency count,
source label). -/
structure Tag where
  name : String
  count : ℕ
  source : String
deriving DecidableEq, Repr

/-- `ResolvedTrack` — canonical identity produced by the Resolver. -/
structure ResolvedTrack where
  mbid : String
  title : String
  artist : String
  artistMbid : String
  album : Option String
  albumMbid : Option String
  releaseYear : Option ℤ
  duration : Option ℕ
  lastfmUrl : Option String
deriving DecidableEq, Repr

/-- `EnrichedTrack extends ResolvedTrack` — the resolved identity plus tags,
similar-track ids, similar-artist names and popularity stats. -/
structure EnrichedTrack where
  base : ResolvedTrack
  tags : List Tag
  similarTracks : List String
  similarArtists : List String
  playcount : Option ℕ
  topListeners : Option ℕ
deriving DecidableEq, Repr

-- ───────────────────────────────────────────────────────────────────────────
-- Pipeline execution trace (executePipeline / updateStatus / saveState)
-- ───────────────────────────────────────────────────────────────────────────

/--
A failure point inside the `try` block of `executePipeline`: one of the six
stage bodies, or the final `saveToDatabase` persistence call issued after the
`complete` transition.  Any of these `await`ed operations can throw; the
surrounding `catch` records the error and marks the run failed.
-/
inductive FailPoint
  | resolveFail
  | enrichFail
  | generateFail
  | scoreFail
  | curateFail
  | explainFail
  | persistFail
deriving DecidableEq, Repr, Fintype

/-- The part of the persisted `PipelineState` that progress polling observes:
status, progress and the typed error. -/
structure Snap where
  status : PStatus
  progress : ℕ
  error : Option PError
deriving DecidableEq, Repr

/-- Running state of `executePipeline`: the current in-memory snapshot and
the list of snapshots persisted so far (one entry per `saveState`). -/
structure ExecSt where
  cur : Snap
  trace : List Snap
deriving Repr

/-- `saveState` — append the current snapshot to the persisted trace. -/
def saveState (s : ExecSt) : ExecSt :=
  { s with trace := s.trace ++ [s.cur] }

/-- `updateStatus(status, progress)` — set both fields, then `saveState`
(source lines 803–809). -/
def updateStatus (st : PStatus) (p : ℕ) (s : ExecSt) : ExecSt :=
  saveState { s with cur := { s.cur with status := st, progress := p } }

/-- The `catch` block of `executePipeline` (source lines 200–210): build the
error from the *current* status, mark the run failed, persist. -/
def catchBlock (msg : String) (s : ExecSt) : ExecSt :=
  saveState { s with cur :=
    { s.cur with
      error := some ⟨"PIPELINE_ERROR", msg, s.cur.status, true⟩
      status := .failed } }

/-- One pipeline stage: enter it via `updateStatus`, then run the stage body,
which either throws (when the oracle designates this stage) or ends with the
stage's own `saveState`. -/
def runStage (fp : FailPoint) (st : PStatus) (p : ℕ) (fail : Option FailPoint)
    (s : ExecSt) : Except ExecSt ExecSt :=
  let s1 := updateStatus st p s
  if fail = some fp then .error (catchBlock "stage error" s1)
  else .ok (saveState s1)

/-- Initial snapshot written by `startPipeline`: status `pending`,
progress `0`, no error. -/
def initSnap : Snap := ⟨.pending, 0, none⟩

/-- Executable check that a list of naturals is non-decreasing. -/
def nondecreasing : List ℕ → Bool
  | [] => true
  | [_] => true
  | a :: b :: rest => a ≤ b && nondecreasing (b :: rest)

/--
`executePipeline` (source lines 169–211), as the list of persisted snapshots
produced by a run, parameterized by which fallible operation (if any) throws.
The `complete` path performs `updateStatus('complete', 100)`, then sets
`completedAt` and saves again, then calls `saveToDatabase` (which may throw,
landing in the same `catch`).
-/
def execPipeline (fail : Option FailPoint) : List Snap :=
  let s0 : ExecSt := saveState ⟨initSnap, []⟩
  let r : Except ExecSt ExecSt := do
    let s ← runStage .resolveFail .resolving 10 fail s0
    let s ← runStage .enrichFail .enriching 25 fail s
    let s ← runStage .generateFail .generating 40 fail s
    let s ← runStage .scoreFail .scoring 60 fail s
    let s ← runStage .curateFail .curating 75 fail s
    let s ← runStage .explainFail .explaining 90 fail s
    let s := updateStatus .complete 100 s
    let s := saveState s
    if fail = some .persistFail then .error (catchBlock "db error" s)
    else .ok s
  match r with
  | .ok s => s.trace
  | .error s => s.trace

-- ───────────────────────────────────────────────────────────────────────────
-- PipelineState, cancellation and the status endpoint
-- ───────────────────────────────────────────────────────────────────────────

/-- A curation-level track record: the fields of a `ScoredTrack` that
`curatePlaylist`, `cancelPipeline` and `getStatus` read (canonical id, title,
popularity category, overall score). -/
structure CTrack where
  mbid : String
  title : String
  category : Category
  overall : ℚ
deriving DecidableEq, Repr

/-- Flow role labels for playlist tracks. -/
inductive FlowRole
  | opener
  | builder
  | peak
  | valley
  | closer
  | transition
deriving DecidableEq, Repr

/-- `PlaylistTrack`: a curated track with position, reason, flow role and
rounded similarity score. -/
structure PTrack where
  track : CTrack
  position : ℕ
  reason : String
  flowRole : FlowRole
  similarityScore : ℤ
deriving DecidableEq, Repr

/-- The durable `PipelineState` record (the fields the modelled operations
read and write). -/
structure PipelineState where
  runId : String
  userId : String
  status : PStatus
  progress : ℕ
  resolvedTrack : Option ResolvedTrack
  finalPlaylist : List PTrack
  error : Option PError
deriving DecidableEq, Repr

/--
`cancelPipeline` (source lines 947–962).  Faithful to the source's statement
order: `status` is assigned `'failed'` FIRST, and the error object is then
built reading `this.pipelineState.status` — which at that point is already
`'failed'`.
-/
def cancelPipeline (s : PipelineState) : PipelineState :=
  let s1 : PipelineState := { s with status := .failed }
  { s1 with
    error := some ⟨"CANCELLED", "Pipeline cancelled by user", s1.status, false⟩ }

/-- The poll-once status response body (`getStatus`, source lines 878–897):
`playlist` is `finalPlaylist` when status is `complete` and `undefined`
(omitted) otherwise. -/
structure StatusResponse where
  runId : String
  status : PStatus
  progress : ℕ
  seedTrack : Option ResolvedTrack
  playlist : Option (List PTrack)
  error : Option PError
deriving DecidableEq, Repr

/-- `getStatus` response construction for a loaded `PipelineState`. -/
def getStatusResponse (s : PipelineState) : StatusResponse :=
  { runId := s.runId
    status := s.status
    progress := s.progress
    seedTrack := s.resolvedTrack
    playlist := if s.status = .complete then some s.finalPlaylist else none
    error := s.error }

-- ───────────────────────────────────────────────────────────────────────────
-- Resolver (resolveTrack, source lines 217–247) with the pipeline catch
-- ───────────────────────────────────────────────────────────────────────────

/-- A `track.search` result entry. -/
structure SearchResult where
  name : String
  artist : String
  mbid : Option String
deriving DecidableEq, Repr

/-- A raw tag as returned by `track.getInfo` (`count` may be missing). -/
structure RawTag where
  name : String
  count : Option ℕ
deriving DecidableEq, Repr

/-- The fields of a `track.getInfo` response the pipeline reads.  String
numerics (`playcount`, `listeners`, `duration`) are modelled post-`parseInt`
as optional naturals. -/
structure TrackInfo where
  name : Option String
  mbid : Option String
  artistName : Option String
  artistMbid : Option String
  albumTitle : Option String
  toptags : Option (List RawTag)
  playcount : Option ℕ
  listeners : Option ℕ
  duration : Option ℕ
  url : Option String
deriving DecidableEq, Repr

/-- JS `a || b` on an optional string: falls through on `undefined` and on
the empty string. -/
def jsOrS (a : Option String) (b : String) : String :=
  match a with
  | some s => if s = "" then b else s
  | none => b

/--
`resolveTrack` (source lines 217–247), parameterized by the outcomes of the
two awaited Last.fm calls (neither helper catches internally, so a thrown
error propagates).  An empty search-result list throws
`Could not find track: "<query>"`.
-/
def resolveTrack (query : String)
    (searchRes : Except String (List SearchResult))
    (infoRes : Except String TrackInfo) : Except String ResolvedTrack := do
  let rs ← searchRes
  match rs with
  | [] => throw ("Could not find track: \"" ++ query ++ "\"")
  | first :: _ => do
    let ti ← infoRes
    pure
      { mbid := jsOrS ti.mbid (jsOrS first.mbid "")
        title := jsOrS ti.name first.name
        artist := jsOrS ti.artistName first.artist
        artistMbid := jsOrS ti.artistMbid ""
        album := ti.albumTitle
        albumMbid := none
        releaseYear := none
        duration := ti.duration
        lastfmUrl := ti.url }

/--
The `resolving` stage as driven by `executePipeline`: `updateStatus`
(status `resolving`, progress 10), then the stage body; a thrown error lands
in the catch (source lines 200–210), which records
`{code: PIPELINE_ERROR, message, stage: <current status>, retryable: true}`
and then sets the status to `failed`.
-/
def runResolvingStage (s : PipelineState)
    (res : Except String ResolvedTrack) : PipelineState :=
  let s1 : PipelineState := { s with status := .resolving, progress := 10 }
  match res with
  | .ok r => { s1 with resolvedTrack := some r }
  | .error m =>
    let s2 : PipelineState :=
      { s1 with error := some ⟨"PIPELINE_ERROR", m, s1.status, true⟩ }
    { s2 with status := .failed }

-- ───────────────────────────────────────────────────────────────────────────
-- Enricher (enrichTrack, source lines 249–279)
-- ───────────────────────────────────────────────────────────────────────────

/-- A `track.getSimilar` result entry. -/
structure SimTrack where
  name : String
  artistName : String
  mbid : Option String
deriving DecidableEq, Repr

/-- The fields of an `artist.getInfo` response the Enricher reads:
`similar.artist` names (the whole chain is optional). -/
structure ArtistInfo where
  similar : Option (List String)
deriving DecidableEq, Repr

/-- Tag construction used by the Enricher: `{name, count: t.count || 0,
source: 'lastfm'}`. -/
def mkTag (t : RawTag) : Tag :=
  ⟨t.name, t.count.getD 0, "lastfm"⟩

/--
`enrichTrack` (source lines 249–279), parameterized by the outcomes of the
three concurrently awaited calls.  `lastfmGetSimilarTracks` catches
internally and degrades to `[]` (source lines 612–631); `lastfmGetTrackInfo`
(lines 605–610) and `lastfmGetArtistInfo` (lines 633–638) do not catch, so
their failures reject the `Promise.all` and fail the stage.
`similarTracks` keeps only truthy (present, non-empty) mbids.
-/
def enrichTrack (track : ResolvedTrack)
    (trackInfoRes : Except String TrackInfo)
    (similarRes : Except String (List SimTrack))
    (artistInfoRes : Except String ArtistInfo) :
    Except String EnrichedTrack := do
  let ti ← trackInfoRes
  let st : List SimTrack :=
    match similarRes with
    | .ok l => l
    | .error _ => []
  let ai ← artistInfoRes
  pure
    { base := track
      tags := (ti.toptags.getD []).map mkTag
      similarTracks := st.filterMap (fun t =>
        match t.mbid with
        | some s => if s = "" then none else some s
        | none => none)
      similarArtists := ai.similar.getD []
      playcount := ti.playcount
      topListeners := ti.listeners }

-- ───────────────────────────────────────────────────────────────────────────
-- Candidate Generator (generateCandidates, source lines 281–333)
-- ───────────────────────────────────────────────────────────────────────────

/-- A raw track as it appears in Last.fm list responses (similar tracks,
artist top tracks, tag top tracks). -/
structure RawTrack where
  name : String
  artistName : String
  mbid : Option String
deriving DecidableEq, Repr

/-- The dedup key the generator checks before enriching:
`track.mbid || track.name`. -/
def rawKey (t : RawTrack) : String :=
  match t.mbid with
  | some s => if s = "" then t.name else s
  | none => t.name

/-- The key under which an enriched candidate is stored:
`enriched.mbid || enriched.title`. -/
def etKey (e : EnrichedTrack) : String :=
  if e.base.mbid ≠ "" then e.base.mbid else e.base.title

/-- The generator's `Map<string, EnrichedTrack>`: an association list with
unique keys in insertion order. -/
abbrev CandMap := List (String × EnrichedTrack)

/-- `Map.has`. -/
def hasKey (m : CandMap) (k : String) : Bool :=
  m.any (fun p => p.1 = k)

/-- `Map.set`: overwrite in place when the key exists, else append. -/
def mapSet (m : CandMap) (k : String) (v : EnrichedTrack) : CandMap :=
  if hasKey m k then m.map (fun p => if p.1 = k then (k, v) else p)
  else m ++ [(k, v)]

/-- All stored pairs are keyed by their value's `mbid || title` key. -/
def keyConsistent (m : CandMap) : Prop :=
  ∀ p ∈ m, p.1 = etKey p.2

/-- The generator's per-track body, shared by all three strategies: skip if
the raw key is already present, otherwise enrich (a failed enrichment is
skipped) and store under the enriched key. -/
def candStep (enr : RawTrack → Option EnrichedTrack) (m : CandMap)
    (t : RawTrack) : CandMap :=
  if hasKey m (rawKey t) then m
  else
    match enr t with
    | some e => mapSet m (etKey e) e
    | none => m

/-- A strategy's track loop: run the per-track body, breaking once the map
has reached `cap` entries (the size check runs after each body). -/
def addCandidates (cap : ℕ) (enr : RawTrack → Option EnrichedTrack) :
    List RawTrack → CandMap → CandMap
  | [], m => m
  | t :: rest, m =>
    let m1 := candStep enr m t
    if cap ≤ m1.length then m1 else addCandidates cap enr rest m1

/-- Strategy 2's outer loop over similar artists: for each artist take the
first 5 of its top tracks, with the same break-once-full check after each
artist. -/
def addArtists (cap : ℕ) (enr : RawTrack → Option EnrichedTrack)
    (topOf : String → List RawTrack) : List String → CandMap → CandMap
  | [], m => m
  | a :: rest, m =>
    let m1 := addCandidates cap enr ((topOf a).take 5) m
    if cap ≤ m1.length then m1 else addArtists cap enr topOf rest m1

/-- The external data `generateCandidates` consumes: the seed's similar
tracks, similar artists, per-artist top tracks, per-tag top tracks, and the
per-candidate enrichment (`enrichCandidate`, `null` on failure). -/
structure GenEnv where
  similarTracks : List RawTrack
  similarArtists : List String
  artistTopTracks : String → List RawTrack
  tagTopTracks : String → List RawTrack
  enrich : RawTrack → Option EnrichedTrack

/-- Strategy 1: the first 50 of the seed's similar tracks, into an empty
map. -/
def genStage1 (env : GenEnv) (cap : ℕ) : CandMap :=
  addCandidates cap env.enrich (env.similarTracks.take 50) []

/-- Strategy 2 (entered only while short of the target): the first 5 similar
artists' top-5 tracks. -/
def genStage2 (env : GenEnv) (cap : ℕ) : CandMap :=
  if (genStage1 env cap).length < cap then
    addArtists cap env.enrich env.artistTopTracks
      (env.similarArtists.take 5) (genStage1 env cap)
  else genStage1 env cap

/-- Strategy 3 (entered only while short of the target, when the seed has
tags): the top tracks of the seed's first tag. -/
def genStage3 (env : GenEnv) (seed : EnrichedTrack) (cap : ℕ) : CandMap :=
  match seed.tags with
  | [] => genStage2 env cap
  | t0 :: _ =>
    if (genStage2 env cap).length < cap then
      addCandidates cap env.enrich (env.tagTopTracks t0.name)
        (genStage2 env cap)
    else genStage2 env cap

/--
`generateCandidates` (source lines 281–333): candidate target is
`targetSize × 4`; the three strategies run in order, each guarded/broken by
the target size; the returned pool is the seed followed by the map's values
in insertion order.
-/
def generateCandidates (env : GenEnv) (seed : EnrichedTrack)
    (targetSize : ℕ) : List EnrichedTrack :=
  seed :: (genStage3 env seed (targetSize * 4)).map Prod.snd

-- ───────────────────────────────────────────────────────────────────────────
-- Similarity Scorer (scoreCandidates and helpers, source lines 335–551)
-- JS floating-point arithmetic (Math.exp, Math.log10) is modelled over ℝ.
-- ───────────────────────────────────────────────────────────────────────────

/-- The `preferences.popularityBias` enum. -/
inductive PopularityBias
  | popular
  | deepCuts
  | hiddenGems
  | balanced
deriving DecidableEq, Repr

/-- Optional user preferences relevant to scoring. -/
structure Preferences where
  eraRange : Option (ℤ × ℤ)
  moodBias : Option String
  popularityBias : Option PopularityBias
deriving DecidableEq, Repr

/-- The per-candidate `scores` record of a `ScoredTrack`. -/
structure Scores where
  tagOverlap : ℝ
  artistSimilarity : ℝ
  temporalProximity : ℝ
  vectorSimilarity : ℝ
  popularityFit : ℝ
  overall : ℝ

/-- The case-folded tag-name set of a tag list. -/
def tagNameSet (ts : List Tag) : Finset String :=
  (ts.map (fun t => t.name.toLower)).toFinset

/--
`calculateTagOverlap` (source lines 460–470): 0 when either list is empty,
else the Jaccard index of the case-folded name sets.
-/
noncomputable def calculateTagOverlap (seedTags candTags : List Tag) : ℝ :=
  if seedTags = [] ∨ candTags = [] then 0
  else
    let s := tagNameSet seedTags
    let c := tagNameSet candTags
    if 0 < (s ∪ c).card then ((s ∩ c).card : ℝ) / ((s ∪ c).card : ℝ) else 0

/--
`calculateArtistSimilarity` (source lines 472–489): 1 for the same artist
(case-insensitive), 0.8 when the candidate's artist is among the seed's
similar artists, 0.6 when the seed's artist is among the candidate's similar
artists, else 0.
-/
noncomputable def calculateArtistSimilarity (seed cand : EnrichedTrack) : ℝ :=
  if seed.base.artist.toLower = cand.base.artist.toLower then 1
  else if seed.similarArtists.any
      (fun a => a.toLower = cand.base.artist.toLower) then 0.8
  else if cand.similarArtists.any
      (fun a => a.toLower = seed.base.artist.toLower) then 0.6
  else 0

/-- The era-range penalty test of `calculateTemporalProximity`: an era
preference is set and the candidate's (truthy, per JS `&&`) year falls
outside it. -/
def eraOutOfRange (eraRange : Option (ℤ × ℤ))
    (candidateYear : Option ℤ) : Bool :=
  match eraRange, candidateYear with
  | some r, some cy =>
    if cy ≠ 0 ∧ (cy < r.1 ∨ r.2 < cy) then true else false
  | _, _ => false

/-- The year-proximity part of `calculateTemporalProximity`: 0.5 when either
year is missing or zero (JS falsiness of `!year`), else the Gaussian decay
`exp(-(Δyears)² / (2·10²))` with σ = 10. -/
noncomputable def gaussianProximity (seedYear candidateYear : Option ℤ) : ℝ :=
  match seedYear, candidateYear with
  | some sy, some cy =>
    if sy = 0 ∨ cy = 0 then 0.5
    else Real.exp (-(((|sy - cy| : ℤ) : ℝ) * ((|sy - cy| : ℤ) : ℝ)) / (2 * 100))
  | _, _ => 0.5

/-- `calculateTemporalProximity` (source lines 491–508): the 0.2 out-of-era
penalty, else the Gaussian year proximity. -/
noncomputable def calculateTemporalProximity
    (seedYear candidateYear : Option ℤ) (eraRange : Option (ℤ × ℤ)) : ℝ :=
  if eraOutOfRange eraRange candidateYear then 0.2
  else gaussianProximity seedYear candidateYear

/--
`calculatePopularityFit` (source lines 510–529): normalize the playcount on
a log scale (`min(1, log10(playcount+1)/8)`, missing playcount read as 0),
then apply the popularity bias; `balanced` or no bias gives a flat 0.5.
-/
noncomputable def calculatePopularityFit (cand : EnrichedTrack)
    (bias : Option PopularityBias) : ℝ :=
  let playcount : ℕ := cand.playcount.getD 0
  let normalizedPop : ℝ := min 1 (Real.logb 10 ((playcount : ℝ) + 1) / 8)
  match bias with
  | some .popular => normalizedPop
  | some .deepCuts => 0.3 + (1 - normalizedPop) * 0.4
  | some .hiddenGems => if normalizedPop < 0.3 then 1 - normalizedPop else 0.2
  | _ => 0.5

/--
The per-candidate body of `scoreCandidates` (source lines 342–370): the five
dimension scores, the weighted average, and the stored `overall = 10 ×` the
weighted average.  `vectorSimilarity` is the placeholder 0.5.
-/
noncomputable def scoreTrack (seed cand : EnrichedTrack)
    (prefs : Option Preferences) : Scores :=
  let tagOverlap := calculateTagOverlap seed.tags cand.tags
  let artistSimilarity := calculateArtistSimilarity seed cand
  let temporalProximity := calculateTemporalProximity seed.base.releaseYear
    cand.base.releaseYear (prefs.bind Preferences.eraRange)
  let vectorSimilarity : ℝ := 0.5
  let popularityFit := calculatePopularityFit cand
    (prefs.bind Preferences.popularityBias)
  let overall := tagOverlap * 0.25 + artistSimilarity * 0.2
    + temporalProximity * 0.15 + vectorSimilarity * 0.25
    + popularityFit * 0.15
  ⟨tagOverlap, artistSimilarity, temporalProximity, vectorSimilarity,
    popularityFit, overall * 10⟩

-- ───────────────────────────────────────────────────────────────────────────
-- Curator (curatePlaylist, source lines 380–422)
-- ───────────────────────────────────────────────────────────────────────────

/-- The dedup/selection key used throughout the source: `t.mbid || t.title`
(the canonical id when non-empty, else the title). -/
def ctKey (t : CTrack) : String :=
  if t.mbid ≠ "" then t.mbid else t.title

/--
`assignFlowRole(index, total)` (source lines 540–551).  The JS computes
`position = index / (total - 1)` in floating point before the branches; the
`index === 0` / `index === total - 1` checks fire first, so the quotient only
matters for `2 ≤ total`, where rational division agrees.
-/
def assignFlowRole (index total : ℕ) : FlowRole :=
  let position : ℚ := (index : ℚ) / ((total : ℚ) - 1)
  if index = 0 then .opener
  else if (index : ℤ) = (total : ℤ) - 1 then .closer
  else if position < 1 / 4 then .builder
  else if position < 1 / 2 then .peak
  else if position < 3 / 4 then .valley
  else .transition

/-- The final `.map((track, index) => ({...}))` of `curatePlaylist`:
position `index + 1`, empty reason, flow role, rounded similarity score. -/
def buildPlaylist (total : ℕ) : ℕ → List CTrack → List PTrack
  | _, [] => []
  | i, c :: cs =>
    { track := c
      position := i + 1
      reason := ""
      flowRole := assignFlowRole i total
      similarityScore := round c.overall } :: buildPlaylist total (i + 1) cs

/-- Category quota `Math.floor(targetSize * 0.35)`. -/
def quotaPopular (ts : ℕ) : ℕ := (⌊(ts : ℚ) * (35 / 100)⌋).toNat

/-- Category quota `Math.floor(targetSize * 0.5)`. -/
def quotaDeepCut (ts : ℕ) : ℕ := (⌊(ts : ℚ) * (5 / 10)⌋).toNat

/-- Category quota `Math.ceil(targetSize * 0.15)`. -/
def quotaHiddenGem (ts : ℕ) : ℕ := (⌈(ts : ℚ) * (15 / 100)⌉).toNat

/-- The quota-filling pass: for each category (in the object-literal order
popular, deep-cut, hidden-gem), take up to the quota from that category's
pool, preserving the input (score-descending) order. -/
def curateSelected (cs : List CTrack) (ts : ℕ) : List CTrack :=
  ((cs.filter (fun c => c.category = .popular)).take (quotaPopular ts))
    ++ ((cs.filter (fun c => c.category = .deepCut)).take (quotaDeepCut ts))
    ++ ((cs.filter (fun c => c.category = .hiddenGem)).take (quotaHiddenGem ts))

/-- The not-yet-selected candidates, in input order (`selectedSet` lookup by
`mbid || title`). -/
def curateRemaining (cs : List CTrack) (ts : ℕ) : List CTrack :=
  cs.filter (fun c => ¬ ((curateSelected cs ts).map ctKey).contains (ctKey c))

/-- The `while` fill loop (append best remaining until `targetSize`) followed
by `selected.slice(0, targetSize)`. -/
def curateFinal (cs : List CTrack) (ts : ℕ) : List CTrack :=
  ((curateSelected cs ts)
    ++ (curateRemaining cs ts).take (ts - (curateSelected cs ts).length)).take ts

/-- `curatePlaylist` — quota selection, remaining fill, truncation and
position/flow-role assignment. -/
def curatePlaylist (cs : List CTrack) (ts : ℕ) : List PTrack :=
  buildPlaylist ts 0 (curateFinal cs ts)

-- ───────────────────────────────────────────────────────────────────────────
-- Rate limiter Durable Object (RateLimiterDO.fetch, source lines 976–1008)
-- ───────────────────────────────────────────────────────────────────────────

/-- Per-API token-bucket configuration (`configs` in the source). -/
structure RLConfig where
  maxTokens : ℚ
  refillRate : ℚ
deriving DecidableEq, Repr

/-- Stored bucket state: the `tokens:<api>` and `lastRefill:<api>` keys.
`lastRefill` is a wall-clock timestamp in milliseconds. -/
structure RLState where
  tokens : ℚ
  lastRefill : ℕ
deriving DecidableEq, Repr

/-- The JSON body returned by the rate limiter. -/
structure RLResult where
  allowed : Bool
  tokensFloor : ℤ
  retryAfter : Option ℤ
deriving DecidableEq, Repr

/--
One `fetch` of the rate limiter at wall-clock time `now` (ms): refill
continuously from the elapsed seconds, capped at capacity; consume one token
and persist when at least one token is available, otherwise deny with
`retryAfter = ceil((1 - tokens) / refillRate * 1000)` and leave the stored
state untouched (the source only `put`s on the allowed path).
-/
def rlAcquire (cfg : RLConfig) (st : RLState) (now : ℕ) : RLResult × RLState :=
  let elapsed : ℚ := ((now : ℚ) - (st.lastRefill : ℚ)) / 1000
  let tokens : ℚ := min cfg.maxTokens (st.tokens + elapsed * cfg.refillRate)
  if 1 ≤ tokens then
    (⟨true, ⌊tokens - 1⌋, none⟩, ⟨tokens - 1, now⟩)
  else
    (⟨false, ⌊tokens⌋, some ⌈(1 - tokens) / cfg.refillRate * 1000⌉⟩, st)

/-- `k` consecutive acquires at the same wall-clock time `now`, collecting
the `allowed` flags and the final stored state. -/
def rlRunResults (cfg : RLConfig) (now : ℕ) : ℕ → RLState → List Bool × RLState
  | 0, st => ([], st)
  | k + 1, st =>
    let p := rlAcquire cfg st now
    let q := rlRunResults cfg now k p.2
    (p.1.allowed :: q.1, q.2)

-- ───────────────────────────────────────────────────────────────────────────
-- Example states used by concrete theorems
-- ───────────────────────────────────────────────────────────────────────────

/-- A concrete scored-candidate list with 12 popular, 16 deep-cut and
6 hidden-gem tracks (distinct non-empty ids, scores non-increasing within
each category). -/
def exTracks : List CTrack :=
  ((List.range 12).map (fun i =>
    ⟨"pop-" ++ toString i, "Popular " ++ toString i, .popular, 90 - i⟩))
  ++ ((List.range 16).map (fun i =>
    ⟨"deep-" ++ toString i, "Deep " ++ toString i, .deepCut, 70 - i⟩))
  ++ ((List.range 6).map (fun i =>
    ⟨"hid-" ++ toString i, "Hidden " ++ toString i, .hiddenGem, 50 - i⟩))

/-- Example builder: a minimal enriched track from a raw track. -/
def mkSimpleEnriched (t : RawTrack) : EnrichedTrack :=
  { base :=
      { mbid := t.mbid.getD ""
        title := t.name
        artist := t.artistName
        artistMbid := ""
        album := none
        albumMbid := none
        releaseYear := none
        duration := none
        lastfmUrl := none }
    tags := []
    similarTracks := []
    similarArtists := []
    playcount := none
    topListeners := none }

/-- A concrete seed track. -/
def exSeed : EnrichedTrack :=
  mkSimpleEnriched ⟨"Seed Song", "Artist X", some "m-seed"⟩

/-- A concrete generator environment: five distinct similar tracks that all
enrich successfully, nothing else. -/
def exEnv : GenEnv :=
  { similarTracks :=
      [⟨"Song A", "Artist X", some "m-a"⟩,
       ⟨"Song B", "Artist X", some "m-b"⟩,
       ⟨"Song C", "Artist Y", some "m-c"⟩,
       ⟨"Song D", "Artist Y", some "m-d"⟩,
       ⟨"Song E", "Artist Z", some "m-e"⟩]
    similarArtists := []
    artistTopTracks := fun _ => []
    tagTopTracks := fun _ => []
    enrich := fun t => some (mkSimpleEnriched t) }

/-- A freshly created run (status `pending`, progress 0). -/
def pendingRunState : PipelineState :=
  { runId := "run-2"
    userId := "user-1"
    status := .pending
    progress := 0
    resolvedTrack := none
    finalPlaylist := []
    error := none }

/-- A concrete resolved seed track for the Enricher. -/
def exResolved : ResolvedTrack :=
  { mbid := "m-seed"
    title := "Seed Song"
    artist := "Artist X"
    artistMbid := ""
    album := none
    albumMbid := none
    releaseYear := none
    duration := none
    lastfmUrl := none }

/-- A run currently in the `generating` stage (progress 40), as persisted. -/
def midRunState : PipelineState :=
  { runId := "run-1"
    userId := "user-1"
    status := .generating
    progress := 40
    resolvedTrack := none
    finalPlaylist := []
    error := none }

-- ───────────────────────────────────────────────────────────────────────────
-- Theorems
-- ───────────────────────────────────────────────────────────────────────────

/--
C1 (amended): across every execution of the pipeline — whichever fallible
operation of the `try` block throws, if any — the persisted progress values
are monotonically non-decreasing; a run that completes successfully takes on
exactly the progress values `[0, 10, 25, 40, 60, 75, 90, 100]` in that order;
and a run that ends with status `failed` has progress `100` exactly when the
failure occurred in the final database-persistence step issued after the
`complete` transition (a failure in any of the six stage bodies leaves
progress strictly below 100).
-/
theorem progress_monotone_and_failed_progress :
    (∀ o : Option FailPoint,
      nondecreasing ((execPipeline o).map Snap.progress) = true)
    ∧ List.destutter (· ≠ ·) ((execPipeline none).map Snap.progress) =
        [0, 10, 25, 40, 60, 75, 90, 100]
    ∧ (∀ o : Option FailPoint,
        ((execPipeline o).getLast?).map Snap.status = some .failed →
          (((execPipeline o).getLast?).map Snap.progress = some 100 ↔
            o = some .persistFail)) := by
  refine ⟨?_, by decide, ?_⟩
  · intro o
    rcases o with _ | fp
    · decide
    · cases fp <;> decide
  · intro o
    rcases o with _ | fp
    · decide
    · cases fp <;> decide

/--
C1 witness: the amended failed-run clause applied at the concrete run whose
final database persistence throws.
-/
theorem progress_monotone_and_failed_progress_witness :
    ((execPipeline (some FailPoint.persistFail)).getLast?).map Snap.status =
      some PStatus.failed
    ∧ (((execPipeline (some FailPoint.persistFail)).getLast?).map Snap.progress =
        some 100 ↔ some FailPoint.persistFail = some FailPoint.persistFail) :=
  ⟨by decide,
    progress_monotone_and_failed_progress.2.2 (some FailPoint.persistFail) (by decide)⟩

/--
C1 counterexample: a run whose `saveToDatabase` call throws (after the
`complete`/100 update was already persisted) ends with status `failed` and
progress `100`, refuting "a run whose status is 'failed' never has
progress 100".
-/
theorem failed_run_can_have_progress_100 :
    ((execPipeline (some FailPoint.persistFail)).getLast?).map Snap.status =
      some PStatus.failed
    ∧ ((execPipeline (some FailPoint.persistFail)).getLast?).map Snap.progress =
      some 100 := by
  decide

/-- Helper: from a bucket whose stored timestamp is `T` and whose stored
tokens are at least `k` (and within capacity), `k` acquires at time `T` are
all allowed and consume exactly `k` tokens. -/
theorem rlAcquire_same_time_allowed (cfg : RLConfig) (t : ℚ) (T : ℕ)
    (hcap : t ≤ cfg.maxTokens) (h1 : (1 : ℚ) ≤ t) :
    rlAcquire cfg ⟨t, T⟩ T = (⟨true, ⌊t - 1⌋, none⟩, ⟨t - 1, T⟩) := by
  simp only [rlAcquire]
  rw [show t + ((T : ℚ) - (T : ℚ)) / 1000 * cfg.refillRate = t from by ring]
  rw [min_eq_right hcap, if_pos h1]

theorem rlRunResults_full (cfg : RLConfig) (T : ℕ) :
    ∀ (k : ℕ) (t : ℚ), (k : ℚ) ≤ t → t ≤ cfg.maxTokens →
      rlRunResults cfg T k ⟨t, T⟩ = (List.replicate k true, ⟨t - k, T⟩) := by
  intro k
  induction k with
  | zero =>
    intro t _ _
    simp [rlRunResults]
  | succ k ih =>
    intro t htok hcap
    have hk0 : (0 : ℚ) ≤ (k : ℚ) := Nat.cast_nonneg k
    have htok' : (k : ℚ) + 1 ≤ t := by push_cast at htok; linarith
    have h1 : (1 : ℚ) ≤ t := by linarith
    have hstep := rlAcquire_same_time_allowed cfg t T hcap h1
    have hrec := ih (t - 1) (by linarith) (by linarith)
    simp only [rlRunResults, hstep, hrec, List.replicate_succ]
    rw [show t - 1 - (k : ℚ) = t - ((k + 1 : ℕ) : ℚ) from by push_cast; ring]

/--
C6: for a bucket with capacity `C` and refill rate `R` tokens per second
(tokens refilled continuously from elapsed wall-clock time, capped at `C`,
one token consumed per allowed acquire), starting from a full bucket:
`C` consecutive immediate acquires are all allowed and leave zero tokens;
the `(C+1)`th acquire is denied with `retryAfterMs = ⌈1000 / R⌉` (≈ 1000/R),
leaving the stored state untouched; and an acquire issued after waiting that
long succeeds.
-/
theorem rate_limiter_bucket_correct (C : ℕ) (R : ℚ) (T : ℕ)
    (hC : 1 ≤ C) (hR : 0 < R) :
    (rlRunResults ⟨(C : ℚ), R⟩ T C ⟨(C : ℚ), T⟩).1 = List.replicate C true
    ∧ (rlRunResults ⟨(C : ℚ), R⟩ T C ⟨(C : ℚ), T⟩).2 = ⟨0, T⟩
    ∧ (rlAcquire ⟨(C : ℚ), R⟩ ⟨0, T⟩ T).1 =
        ⟨false, 0, some ⌈(1000 : ℚ) / R⌉⟩
    ∧ (rlAcquire ⟨(C : ℚ), R⟩ ⟨0, T⟩ T).2 = ⟨0, T⟩
    ∧ (rlAcquire ⟨(C : ℚ), R⟩ ⟨0, T⟩
        (T + (⌈(1000 : ℚ) / R⌉).toNat)).1.allowed = true := by
  have hrun := rlRunResults_full ⟨(C : ℚ), R⟩ T C (C : ℚ) (le_refl _) (le_refl _)
  have hCq : (0 : ℚ) ≤ (C : ℚ) := by positivity
  have hdeny : rlAcquire ⟨(C : ℚ), R⟩ ⟨0, T⟩ T =
      (⟨false, 0, some ⌈(1000 : ℚ) / R⌉⟩, ⟨0, T⟩) := by
    simp only [rlAcquire]
    rw [show (0 : ℚ) + ((T : ℚ) - (T : ℚ)) / 1000 * R = 0 from by ring]
    rw [min_eq_right hCq, if_neg (by norm_num)]
    rw [show (1 - (0 : ℚ)) / R * 1000 = 1000 / R from by ring]
    norm_num
  refine ⟨by rw [hrun], by rw [hrun]; norm_num, by rw [hdeny], by rw [hdeny], ?_⟩
  have hcpos : (0 : ℚ) < 1000 / R := by positivity
  have hceil1 : (1 : ℤ) ≤ ⌈(1000 : ℚ) / R⌉ := Int.ceil_pos.mpr hcpos
  have hnn : (0 : ℤ) ≤ ⌈(1000 : ℚ) / R⌉ := by linarith
  have hcast : (((⌈(1000 : ℚ) / R⌉).toNat : ℕ) : ℚ) = ((⌈(1000 : ℚ) / R⌉ : ℤ) : ℚ) := by
    exact_mod_cast Int.toNat_of_nonneg hnn
  have helapsed : ((T + (⌈(1000 : ℚ) / R⌉).toNat : ℕ) : ℚ) - (T : ℚ) =
      ((⌈(1000 : ℚ) / R⌉ : ℤ) : ℚ) := by
    rw [Nat.cast_add, hcast]
    ring
  have hge : (1000 : ℚ) / R ≤ ((⌈(1000 : ℚ) / R⌉ : ℤ) : ℚ) := Int.le_ceil _
  have h1000 : (1000 : ℚ) / R * R = 1000 := div_mul_cancel₀ _ (ne_of_gt hR)
  have hmul : (1000 : ℚ) ≤ ((⌈(1000 : ℚ) / R⌉ : ℤ) : ℚ) * R := by
    calc (1000 : ℚ) = 1000 / R * R := h1000.symm
      _ ≤ ((⌈(1000 : ℚ) / R⌉ : ℤ) : ℚ) * R :=
        mul_le_mul_of_nonneg_right hge (le_of_lt hR)
  have htok1 : (1 : ℚ) ≤ min ((C : ℚ))
      ((0 : ℚ) + (((T + (⌈(1000 : ℚ) / R⌉).toNat : ℕ) : ℚ) - (T : ℚ)) / 1000 * R) := by
    refine le_min (by exact_mod_cast hC) ?_
    rw [helapsed, zero_add, div_mul_eq_mul_div,
      le_div_iff₀ (by norm_num : (0 : ℚ) < 1000)]
    linarith
  simp only [rlAcquire]
  rw [if_pos htok1]

/--
C6 witness: the Last.fm bucket (capacity 5, refill 5/sec) starting full at
time 0: five immediate acquires allowed, the sixth denied with
`retryAfter = ⌈1000/5⌉ = 200` ms, and an acquire 200 ms later allowed.
-/
theorem rate_limiter_bucket_correct_witness :
    (1 ≤ (5 : ℕ)) ∧ ((0 : ℚ) < (5 : ℚ)) ∧
    ((rlRunResults ⟨((5 : ℕ) : ℚ), (5 : ℚ)⟩ 0 5 ⟨((5 : ℕ) : ℚ), 0⟩).1 =
        List.replicate 5 true
      ∧ (rlRunResults ⟨((5 : ℕ) : ℚ), (5 : ℚ)⟩ 0 5 ⟨((5 : ℕ) : ℚ), 0⟩).2 = ⟨0, 0⟩
      ∧ (rlAcquire ⟨((5 : ℕ) : ℚ), (5 : ℚ)⟩ ⟨0, 0⟩ 0).1 =
          ⟨false, 0, some ⌈(1000 : ℚ) / 5⌉⟩
      ∧ (rlAcquire ⟨((5 : ℕ) : ℚ), (5 : ℚ)⟩ ⟨0, 0⟩ 0).2 = ⟨0, 0⟩
      ∧ (rlAcquire ⟨((5 : ℕ) : ℚ), (5 : ℚ)⟩ ⟨0, 0⟩
          (0 + (⌈(1000 : ℚ) / 5⌉).toNat)).1.allowed = true) :=
  ⟨by norm_num, by norm_num,
    rate_limiter_bucket_correct 5 5 0 (by norm_num) (by norm_num)⟩

/--
C4 (amended): the category is `popular` iff the playcount is known and
exceeds 1,000,000; `hidden-gem` iff the playcount is known, nonzero and at
most 100,000; and `deep-cut` otherwise — i.e. when the playcount is unknown,
zero, or in (100,000, 1,000,000].
-/
theorem categorize_thresholds (pc? : Option ℕ) :
    (categorizeByPopularity pc? = .popular ↔ ∃ n, pc? = some n ∧ 1000000 < n)
    ∧ (categorizeByPopularity pc? = .hiddenGem ↔
        ∃ n, pc? = some n ∧ 0 < n ∧ n ≤ 100000)
    ∧ (categorizeByPopularity pc? = .deepCut ↔
        pc? = none ∨ pc? = some 0 ∨
          ∃ n, pc? = some n ∧ 100000 < n ∧ n ≤ 1000000) := by
  cases pc? with
  | none => simp [categorizeByPopularity]
  | some n =>
    simp only [categorizeByPopularity, Option.some.injEq]
    refine ⟨?_, ?_, ?_⟩ <;> split_ifs with h1 h2 h3 <;> simp_all <;> omega

/--
C4 counterexample: an unknown playcount is categorized `deep-cut`, not
`hidden-gem` as the claim states.
-/
theorem categorize_unknown_playcount_is_deep_cut :
    categorizeByPopularity none = Category.deepCut
    ∧ Category.deepCut ≠ Category.hiddenGem := by
  decide

/-- Helper: `buildPlaylist` preserves length. -/
theorem buildPlaylist_length (total : ℕ) :
    ∀ (l : List CTrack) (i : ℕ), (buildPlaylist total i l).length = l.length := by
  intro l
  induction l with
  | nil => intro i; rfl
  | cons c cs ih => intro i; simp [buildPlaylist, ih (i + 1)]

/-- Helper: `buildPlaylist` assigns consecutive positions starting at
`i + 1`. -/
theorem buildPlaylist_positions (total : ℕ) :
    ∀ (l : List CTrack) (i : ℕ),
      (buildPlaylist total i l).map PTrack.position =
        List.range' (i + 1) l.length := by
  intro l
  induction l with
  | nil => intro i; simp [buildPlaylist]
  | cons c cs ih =>
    intro i
    simp only [buildPlaylist, List.map_cons, List.length_cons, List.range'_succ]
    rw [ih (i + 1)]

/-- Helper: `buildPlaylist` preserves per-category counts. -/
theorem buildPlaylist_filter_category (cat : Category) (total : ℕ) :
    ∀ (l : List CTrack) (i : ℕ),
      ((buildPlaylist total i l).filter
          (fun p => p.track.category = cat)).length =
        (l.filter (fun c => c.category = cat)).length := by
  intro l
  induction l with
  | nil => intro i; simp [buildPlaylist]
  | cons c cs ih =>
    intro i
    simp only [buildPlaylist, List.filter_cons]
    by_cases h : c.category = cat
    · simp [h, ih (i + 1)]
    · simp [h, ih (i + 1)]

/-- Helper: re-filtering a prefix of a filtered list is the identity. -/
theorem filter_take_self {α : Type} (p : α → Bool) (l : List α) (n : ℕ) :
    ((l.filter p).take n).filter p = (l.filter p).take n :=
  List.filter_eq_self.mpr
    (fun _ ha => List.of_mem_filter (List.mem_of_mem_take ha))

/-- Helper: filtering a prefix of a `q`-filtered list by a predicate `p`
disjoint from `q` gives the empty list. -/
theorem filter_take_none {α : Type} (p q : α → Bool) (l : List α) (n : ℕ)
    (h : ∀ a, q a = true → p a = false) :
    ((l.filter q).take n).filter p = [] := by
  rw [List.filter_eq_nil_iff]
  intro a ha
  have hq := List.of_mem_filter (List.mem_of_mem_take ha)
  simp [h a hq]

/--
C3: the Curator truncates to `targetSize` and assigns positions `1..N` in
selection order for every input; and for `targetSize = 30`, whenever the
input holds at least 10 popular, 15 deep-cut and 5 hidden-gem candidates, the
output contains exactly 10 popular, 15 deep-cut and 5 hidden-gem tracks,
30 in total (quotas `⌊0.35·30⌋ = 10`, `⌊0.50·30⌋ = 15`, `⌈0.15·30⌉ = 5`,
filled highest-first from each category's pool, remaining slots from the
highest-scoring unselected tracks).
-/
theorem curate_quota_and_positions :
    (∀ (cs : List CTrack) (ts : ℕ),
      (curatePlaylist cs ts).length ≤ ts
      ∧ (curatePlaylist cs ts).map PTrack.position =
          List.range' 1 (curatePlaylist cs ts).length)
    ∧ (∀ cs : List CTrack,
        10 ≤ (cs.filter (fun c => c.category = Category.popular)).length →
        15 ≤ (cs.filter (fun c => c.category = Category.deepCut)).length →
        5 ≤ (cs.filter (fun c => c.category = Category.hiddenGem)).length →
        ((curatePlaylist cs 30).filter
            (fun p => p.track.category = Category.popular)).length = 10
        ∧ ((curatePlaylist cs 30).filter
            (fun p => p.track.category = Category.deepCut)).length = 15
        ∧ ((curatePlaylist cs 30).filter
            (fun p => p.track.category = Category.hiddenGem)).length = 5
        ∧ (curatePlaylist cs 30).length = 30) := by
  constructor
  · intro cs ts
    constructor
    · rw [curatePlaylist, buildPlaylist_length, curateFinal, List.length_take]
      exact min_le_left _ _
    · rw [curatePlaylist, buildPlaylist_positions, buildPlaylist_length]
  · intro cs hp hd hh
    have hqp : quotaPopular 30 = 10 := by norm_num [quotaPopular]; decide
    have hqd : quotaDeepCut 30 = 15 := by norm_num [quotaDeepCut]; decide
    have hqh : quotaHiddenGem 30 = 5 := by
      have h1 : ((30 : ℕ) : ℚ) * (15 / 100) = 9 / 2 := by norm_num
      have h2 : (⌈(9 / 2 : ℚ)⌉ : ℤ) = 5 := by
        rw [Int.ceil_eq_iff]
        norm_num
      rw [quotaHiddenGem, h1, h2]
      rfl
    have hselLen : (curateSelected cs 30).length = 30 := by
      rw [curateSelected, hqp, hqd, hqh, List.length_append, List.length_append,
        List.length_take, List.length_take, List.length_take,
        min_eq_left hp, min_eq_left hd, min_eq_left hh]
    have hfin : curateFinal cs 30 = curateSelected cs 30 := by
      rw [curateFinal, hselLen, Nat.sub_self, List.take_zero, List.append_nil]
      exact List.take_of_length_le (le_of_eq hselLen)
    have hPD : ∀ a : CTrack, (decide (a.category = Category.deepCut)) = true →
        (decide (a.category = Category.popular)) = false := by
      intro a h; simp at h; simp [h]
    have hPH : ∀ a : CTrack, (decide (a.category = Category.hiddenGem)) = true →
        (decide (a.category = Category.popular)) = false := by
      intro a h; simp at h; simp [h]
    have hDP : ∀ a : CTrack, (decide (a.category = Category.popular)) = true →
        (decide (a.category = Category.deepCut)) = false := by
      intro a h; simp at h; simp [h]
    have hDH : ∀ a : CTrack, (decide (a.category = Category.hiddenGem)) = true →
        (decide (a.category = Category.deepCut)) = false := by
      intro a h; simp at h; simp [h]
    have hHP : ∀ a : CTrack, (decide (a.category = Category.popular)) = true →
        (decide (a.category = Category.hiddenGem)) = false := by
      intro a h; simp at h; simp [h]
    have hHD : ∀ a : CTrack, (decide (a.category = Category.deepCut)) = true →
        (decide (a.category = Category.hiddenGem)) = false := by
      intro a h; simp at h; simp [h]
    refine ⟨?_, ?_, ?_, ?_⟩
    · rw [curatePlaylist, buildPlaylist_filter_category, hfin, curateSelected,
        hqp, hqd, hqh, List.filter_append, List.filter_append,
        filter_take_self, filter_take_none _ _ _ _ hPD,
        filter_take_none _ _ _ _ hPH, List.length_append, List.length_append,
        List.length_take, min_eq_left hp]
      rfl
    · rw [curatePlaylist, buildPlaylist_filter_category, hfin, curateSelected,
        hqp, hqd, hqh, List.filter_append, List.filter_append,
        filter_take_self, filter_take_none _ _ _ _ hDP,
        filter_take_none _ _ _ _ hDH, List.length_append, List.length_append,
        List.length_take, min_eq_left hd]
      rfl
    · rw [curatePlaylist, buildPlaylist_filter_category, hfin, curateSelected,
        hqp, hqd, hqh, List.filter_append, List.filter_append,
        filter_take_self, filter_take_none _ _ _ _ hHP,
        filter_take_none _ _ _ _ hHD, List.length_append, List.length_append,
        List.length_take, min_eq_left hh]
      rfl
    · rw [curatePlaylist, buildPlaylist_length, hfin]
      exact hselLen

/--
C3 witness: a pool with 12 popular, 16 deep-cut and 6 hidden-gem candidates
curated at `targetSize = 30` yields exactly 10/15/5 and 30 tracks.
-/
theorem curate_quota_and_positions_witness :
    (10 ≤ (exTracks.filter (fun c => c.category = Category.popular)).length)
    ∧ (15 ≤ (exTracks.filter (fun c => c.category = Category.deepCut)).length)
    ∧ (5 ≤ (exTracks.filter (fun c => c.category = Category.hiddenGem)).length)
    ∧ (((curatePlaylist exTracks 30).filter
          (fun p => p.track.category = Category.popular)).length = 10
      ∧ ((curatePlaylist exTracks 30).filter
          (fun p => p.track.category = Category.deepCut)).length = 15
      ∧ ((curatePlaylist exTracks 30).filter
          (fun p => p.track.category = Category.hiddenGem)).length = 5
      ∧ (curatePlaylist exTracks 30).length = 30) :=
  ⟨by decide, by decide, by decide,
    curate_quota_and_positions.2 exTracks (by decide) (by decide) (by decide)⟩

/-- Helper: the tag-overlap Jaccard index lies in [0, 1]. -/
theorem tagOverlap_bounds (a b : List Tag) :
    0 ≤ calculateTagOverlap a b ∧ calculateTagOverlap a b ≤ 1 := by
  simp only [calculateTagOverlap]
  split_ifs with h1 h2
  · norm_num
  · constructor
    · positivity
    · rw [div_le_one (by exact_mod_cast h2)]
      exact_mod_cast Finset.card_le_card Finset.inter_subset_union
  · norm_num

/-- Helper: the artist-similarity score lies in [0, 1]. -/
theorem artistSimilarity_bounds (s c : EnrichedTrack) :
    0 ≤ calculateArtistSimilarity s c ∧ calculateArtistSimilarity s c ≤ 1 := by
  simp only [calculateArtistSimilarity]
  split_ifs <;> norm_num

/-- Helper: the Gaussian year proximity lies in [0, 1]. -/
theorem gaussianProximity_bounds (sy cy : Option ℤ) :
    0 ≤ gaussianProximity sy cy ∧ gaussianProximity sy cy ≤ 1 := by
  rcases sy with _ | y1
  · simp only [gaussianProximity]
    norm_num
  · rcases cy with _ | y2
    · simp only [gaussianProximity]
      norm_num
    · simp only [gaussianProximity]
      split_ifs with h
      · norm_num
      · refine ⟨le_of_lt (Real.exp_pos _), ?_⟩
        rw [Real.exp_le_one_iff]
        apply div_nonpos_of_nonpos_of_nonneg
        · exact neg_nonpos_of_nonneg (mul_self_nonneg _)
        · norm_num

/-- Helper: the temporal-proximity score lies in [0, 1]. -/
theorem temporalProximity_bounds (sy cy : Option ℤ) (er : Option (ℤ × ℤ)) :
    0 ≤ calculateTemporalProximity sy cy er
    ∧ calculateTemporalProximity sy cy er ≤ 1 := by
  simp only [calculateTemporalProximity]
  split_ifs with h
  · norm_num
  · exact gaussianProximity_bounds sy cy

/-- Helper: the popularity-fit score lies in [0, 1] for every bias. -/
theorem popularityFit_bounds (cand : EnrichedTrack)
    (bias : Option PopularityBias) :
    0 ≤ calculatePopularityFit cand bias
    ∧ calculatePopularityFit cand bias ≤ 1 := by
  have hx : (1 : ℝ) ≤ ((cand.playcount.getD 0 : ℕ) : ℝ) + 1 := by
    have hge : (0 : ℝ) ≤ ((cand.playcount.getD 0 : ℕ) : ℝ) := Nat.cast_nonneg _
    linarith
  have hlog : 0 ≤ Real.logb 10 (((cand.playcount.getD 0 : ℕ) : ℝ) + 1) :=
    Real.logb_nonneg (by norm_num) hx
  simp only [calculatePopularityFit]
  set n : ℝ := min 1 (Real.logb 10 (((cand.playcount.getD 0 : ℕ) : ℝ) + 1) / 8)
    with hn
  have hn0 : 0 ≤ n := le_min (by norm_num) (by positivity)
  have hn1 : n ≤ 1 := min_le_left _ _
  cases bias with
  | none => norm_num
  | some b =>
    cases b with
    | popular => exact ⟨hn0, hn1⟩
    | deepCuts => constructor <;> nlinarith
    | hiddenGems =>
      split_ifs with h
      · constructor <;> linarith
      · norm_num
    | balanced => norm_num

/--
C2: for every seed, candidate and preferences, each dimension score
(tagOverlap, artistSimilarity, temporalProximity, vectorSimilarity,
popularityFit) lies in [0, 1]; the stored overall equals
`10 × (0.25·tagOverlap + 0.20·artistSimilarity + 0.15·temporalProximity +
0.25·vectorSimilarity + 0.15·popularityFit)` — reconstructible from the five
stored dimension scores — and hence lies in [0, 10].
-/
theorem score_bounds_and_formula (seed cand : EnrichedTrack)
    (prefs : Option Preferences) :
    (0 ≤ (scoreTrack seed cand prefs).tagOverlap
      ∧ (scoreTrack seed cand prefs).tagOverlap ≤ 1)
    ∧ (0 ≤ (scoreTrack seed cand prefs).artistSimilarity
      ∧ (scoreTrack seed cand prefs).artistSimilarity ≤ 1)
    ∧ (0 ≤ (scoreTrack seed cand prefs).temporalProximity
      ∧ (scoreTrack seed cand prefs).temporalProximity ≤ 1)
    ∧ (0 ≤ (scoreTrack seed cand prefs).vectorSimilarity
      ∧ (scoreTrack seed cand prefs).vectorSimilarity ≤ 1)
    ∧ (0 ≤ (scoreTrack seed cand prefs).popularityFit
      ∧ (scoreTrack seed cand prefs).popularityFit ≤ 1)
    ∧ (scoreTrack seed cand prefs).overall =
        10 * (0.25 * (scoreTrack seed cand prefs).tagOverlap
          + 0.20 * (scoreTrack seed cand prefs).artistSimilarity
          + 0.15 * (scoreTrack seed cand prefs).temporalProximity
          + 0.25 * (scoreTrack seed cand prefs).vectorSimilarity
          + 0.15 * (scoreTrack seed cand prefs).popularityFit)
    ∧ 0 ≤ (scoreTrack seed cand prefs).overall
    ∧ (scoreTrack seed cand prefs).overall ≤ 10 := by
  have h1 := tagOverlap_bounds seed.tags cand.tags
  have h2 := artistSimilarity_bounds seed cand
  have h3 := temporalProximity_bounds seed.base.releaseYear
    cand.base.releaseYear (prefs.bind Preferences.eraRange)
  have h5 := popularityFit_bounds cand (prefs.bind Preferences.popularityBias)
  simp only [scoreTrack]
  refine ⟨h1, h2, h3, by norm_num, h5, by ring, ?_, ?_⟩
  · obtain ⟨h1a, h1b⟩ := h1
    obtain ⟨h2a, h2b⟩ := h2
    obtain ⟨h3a, h3b⟩ := h3
    obtain ⟨h5a, h5b⟩ := h5
    nlinarith
  · obtain ⟨h1a, h1b⟩ := h1
    obtain ⟨h2a, h2b⟩ := h2
    obtain ⟨h3a, h3b⟩ := h3
    obtain ⟨h5a, h5b⟩ := h5
    nlinarith

/-- Helper: an absent key is not among the stored keys. -/
theorem not_hasKey_not_mem (m : CandMap) (k : String)
    (h : hasKey m k = false) : k ∉ m.map Prod.fst := by
  intro hk
  rcases List.mem_map.mp hk with ⟨p, hp, hpk⟩
  have hT : hasKey m k = true := by
    unfold hasKey
    rw [List.any_eq_true]
    exact ⟨p, hp, by simp [hpk]⟩
  simp [hT] at h

/-- Helper: `Map.set` on an existing key leaves the key list unchanged. -/
theorem mapSet_keys_of_has (m : CandMap) (k : String) (v : EnrichedTrack)
    (h : hasKey m k = true) :
    (mapSet m k v).map Prod.fst = m.map Prod.fst := by
  unfold mapSet
  rw [if_pos h, List.map_map]
  apply List.map_congr_left
  intro p _
  by_cases hp : p.1 = k
  · simp [Function.comp, hp]
  · simp [Function.comp, hp]

/-- Helper: `Map.set` on a fresh key appends it to the key list. -/
theorem mapSet_keys_of_not (m : CandMap) (k : String) (v : EnrichedTrack)
    (h : hasKey m k = false) :
    (mapSet m k v).map Prod.fst = m.map Prod.fst ++ [k] := by
  unfold mapSet
  rw [if_neg (by simp [h])]
  simp

/-- Helper: `Map.set` preserves key uniqueness. -/
theorem mapSet_keys_nodup (m : CandMap) (k : String) (v : EnrichedTrack)
    (hnd : (m.map Prod.fst).Nodup) :
    ((mapSet m k v).map Prod.fst).Nodup := by
  cases h : hasKey m k
  · rw [mapSet_keys_of_not m k v h]
    rw [List.nodup_append]
    exact ⟨hnd, List.nodup_singleton k,
      by simpa [List.disjoint_singleton] using not_hasKey_not_mem m k h⟩
  · rw [mapSet_keys_of_has m k v h]
    exact hnd

/-- Helper: `Map.set` under the value's own key preserves key/value
consistency. -/
theorem mapSet_keyConsistent (m : CandMap) (v : EnrichedTrack)
    (hm : keyConsistent m) : keyConsistent (mapSet m (etKey v) v) := by
  unfold mapSet
  split_ifs with h
  · intro p hp
    rcases List.mem_map.mp hp with ⟨q, hq, rfl⟩
    by_cases hqk : q.1 = etKey v
    · simp [hqk]
    · simp only [if_neg hqk]
      exact hm q hq
  · intro p hp
    rcases List.mem_append.mp hp with h1 | h1
    · exact hm p h1
    · rw [List.mem_singleton] at h1
      subst h1
      rfl

/-- Helper: `Map.set` grows the map by at most one entry. -/
theorem mapSet_length_le (m : CandMap) (k : String) (v : EnrichedTrack) :
    (mapSet m k v).length ≤ m.length + 1 := by
  unfold mapSet
  split_ifs
  · simp
  · simp

/-- Helper: the per-track body preserves key uniqueness and key/value
consistency. -/
theorem candStep_inv (enr : RawTrack → Option EnrichedTrack) (m : CandMap)
    (t : RawTrack) (h1 : (m.map Prod.fst).Nodup) (h2 : keyConsistent m) :
    ((candStep enr m t).map Prod.fst).Nodup
    ∧ keyConsistent (candStep enr m t) := by
  unfold candStep
  split_ifs with h
  · exact ⟨h1, h2⟩
  · cases enr t with
    | none => exact ⟨h1, h2⟩
    | some e => exact ⟨mapSet_keys_nodup _ _ _ h1, mapSet_keyConsistent _ _ h2⟩

/-- Helper: the per-track body grows the map by at most one entry. -/
theorem candStep_length (enr : RawTrack → Option EnrichedTrack) (m : CandMap)
    (t : RawTrack) : (candStep enr m t).length ≤ m.length + 1 := by
  unfold candStep
  split_ifs
  · omega
  · cases enr t with
    | none => exact Nat.le_succ _
    | some e => exact mapSet_length_le _ _ _

/-- Helper: a strategy loop started strictly below the cap ends at or below
the cap. -/
theorem addCandidates_length_le (cap : ℕ) (enr : RawTrack → Option EnrichedTrack) :
    ∀ (l : List RawTrack) (m : CandMap), m.length < cap →
      (addCandidates cap enr l m).length ≤ cap := by
  intro l
  induction l with
  | nil => intro m h; exact le_of_lt h
  | cons t rest ih =>
    intro m h
    simp only [addCandidates]
    have h1 : (candStep enr m t).length ≤ cap :=
      le_trans (candStep_length _ _ _) (by omega)
    by_cases hc : cap ≤ (candStep enr m t).length
    · rw [if_pos hc]; exact h1
    · rw [if_neg hc]
      exact ih _ (lt_of_not_le hc)

/-- Helper: a strategy loop preserves key uniqueness and consistency. -/
theorem addCandidates_inv (cap : ℕ) (enr : RawTrack → Option EnrichedTrack) :
    ∀ (l : List RawTrack) (m : CandMap),
      (m.map Prod.fst).Nodup → keyConsistent m →
      ((addCandidates cap enr l m).map Prod.fst).Nodup
      ∧ keyConsistent (addCandidates cap enr l m) := by
  intro l
  induction l with
  | nil => intro m h1 h2; exact ⟨h1, h2⟩
  | cons t rest ih =>
    intro m h1 h2
    simp only [addCandidates]
    have hstep := candStep_inv enr m t h1 h2
    by_cases hc : cap ≤ (candStep enr m t).length
    · rw [if_pos hc]; exact hstep
    · rw [if_neg hc]
      exact ih _ hstep.1 hstep.2

/-- Helper: the similar-artists loop started strictly below the cap ends at
or below the cap. -/
theorem addArtists_length_le (cap : ℕ) (enr : RawTrack → Option EnrichedTrack)
    (topOf : String → List RawTrack) :
    ∀ (arts : List String) (m : CandMap), m.length < cap →
      (addArtists cap enr topOf arts m).length ≤ cap := by
  intro arts
  induction arts with
  | nil => intro m h; exact le_of_lt h
  | cons a rest ih =>
    intro m h
    simp only [addArtists]
    have h1 : (addCandidates cap enr ((topOf a).take 5) m).length ≤ cap :=
      addCandidates_length_le cap enr _ m h
    by_cases hc : cap ≤ (addCandidates cap enr ((topOf a).take 5) m).length
    · rw [if_pos hc]; exact h1
    · rw [if_neg hc]
      exact ih _ (lt_of_not_le hc)

/-- Helper: the similar-artists loop preserves key uniqueness and
consistency. -/
theorem addArtists_inv (cap : ℕ) (enr : RawTrack → Option EnrichedTrack)
    (topOf : String → List RawTrack) :
    ∀ (arts : List String) (m : CandMap),
      (m.map Prod.fst).Nodup → keyConsistent m →
      ((addArtists cap enr topOf arts m).map Prod.fst).Nodup
      ∧ keyConsistent (addArtists cap enr topOf arts m) := by
  intro arts
  induction arts with
  | nil => intro m h1 h2; exact ⟨h1, h2⟩
  | cons a rest ih =>
    intro m h1 h2
    simp only [addArtists]
    have hstep := addCandidates_inv cap enr ((topOf a).take 5) m h1 h2
    by_cases hc : cap ≤ (addCandidates cap enr ((topOf a).take 5) m).length
    · rw [if_pos hc]; exact hstep
    · rw [if_neg hc]
      exact ih _ hstep.1 hstep.2

/-- Helper: the candidate map after all three strategies has at most `cap`
entries when `cap` is positive. -/
theorem genStage3_length_le (env : GenEnv) (seed : EnrichedTrack) (cap : ℕ)
    (hcap : 0 < cap) : (genStage3 env seed cap).length ≤ cap := by
  have h1 : (genStage1 env cap).length ≤ cap :=
    addCandidates_length_le cap env.enrich _ [] (by simpa using hcap)
  have h2 : (genStage2 env cap).length ≤ cap := by
    unfold genStage2
    split_ifs with hc
    · exact addArtists_length_le cap env.enrich env.artistTopTracks _ _ hc
    · exact h1
  unfold genStage3
  split
  · exact h2
  · split_ifs with hc
    · exact addCandidates_length_le cap env.enrich _ _ hc
    · exact h2

/-- Helper: the candidate map after all three strategies has pairwise
distinct keys and is keyed by each value's own `mbid || title`. -/
theorem genStage3_inv (env : GenEnv) (seed : EnrichedTrack) (cap : ℕ) :
    ((genStage3 env seed cap).map Prod.fst).Nodup
    ∧ keyConsistent (genStage3 env seed cap) := by
  have h1 := addCandidates_inv cap env.enrich (env.similarTracks.take 50) []
    (by simp) (by intro p hp; simp at hp)
  have h2 : ((genStage2 env cap).map Prod.fst).Nodup
      ∧ keyConsistent (genStage2 env cap) := by
    unfold genStage2
    split_ifs with hc
    · exact addArtists_inv cap env.enrich env.artistTopTracks _ _ h1.1 h1.2
    · exact h1
  unfold genStage3
  split
  · exact h2
  · split_ifs with hc
    · exact addCandidates_inv cap env.enrich _ _ h2.1 h2.2
    · exact h2

/--
C5 (amended): for every generator environment, seed and positive target
size, the non-seed entries of the candidate pool have pairwise distinct
dedup keys (the non-empty canonical id, or the title when the id is empty),
and the pool — seed at index 0 included — holds at most
`targetSize × 4 + 1` entries: the cap `targetSize × 4` bounds the candidate
map only, and the seed is prepended on top of it (so the pool can reach
`4·targetSize + 1`, and the seed itself may share a key with a candidate).
-/
theorem generate_pool_size_and_dedup (env : GenEnv) (seed : EnrichedTrack)
    (ts : ℕ) (hts : 1 ≤ ts) :
    (generateCandidates env seed ts).length ≤ ts * 4 + 1
    ∧ (((generateCandidates env seed ts).tail).map etKey).Nodup := by
  have hcap : 0 < ts * 4 := by omega
  have hlen := genStage3_length_le env seed (ts * 4) hcap
  have hinv := genStage3_inv env seed (ts * 4)
  constructor
  · simp only [generateCandidates, List.length_cons, List.length_map]
    omega
  · simp only [generateCandidates, List.tail_cons, List.map_map]
    have : (genStage3 env seed (ts * 4)).map (etKey ∘ Prod.snd) =
        (genStage3 env seed (ts * 4)).map Prod.fst := by
      apply List.map_congr_left
      intro p hp
      exact (hinv.2 p hp).symm
    rw [this]
    exact hinv.1

/--
C5 witness: the amended dedup/size bound at the concrete environment with
five enrichable similar tracks and `targetSize = 1`.
-/
theorem generate_pool_size_and_dedup_witness :
    (1 ≤ 1)
    ∧ ((generateCandidates exEnv exSeed 1).length ≤ 1 * 4 + 1
      ∧ (((generateCandidates exEnv exSeed 1).tail).map etKey).Nodup) :=
  ⟨by decide, generate_pool_size_and_dedup exEnv exSeed 1 (by decide)⟩

/--
C5 counterexample: with `targetSize = 1` (candidate cap 4) and five
enrichable similar tracks, the generated pool holds the seed plus four
candidates — five entries, exceeding `targetSize × 4 = 4`.  This refutes
"the pool size never exceeds targetSize × 4".
-/
theorem generate_pool_exceeds_cap :
    (generateCandidates exEnv exSeed 1).length = 5
    ∧ ¬ ((generateCandidates exEnv exSeed 1).length ≤ 1 * 4) := by
  decide

/--
C8 (amended): when the Resolver's search returns no results, the run fails
with the message `Could not find track: "<query>"`, and when the search call
itself throws (transient network/API error) the run fails with that error's
message; in both cases the recorded typed error has code `PIPELINE_ERROR`,
`retryable = true` (the catch-all marks every pipeline error retryable — the
not-found case is not distinguished), and its stage field is `resolving`,
the stage in which the failure occurred.
-/
theorem resolver_error_semantics :
    (∀ (q : String) (ti : Except String TrackInfo) (s : PipelineState),
      (runResolvingStage s (resolveTrack q (.ok []) ti)).status = PStatus.failed
      ∧ (runResolvingStage s (resolveTrack q (.ok []) ti)).error =
          some ⟨"PIPELINE_ERROR", "Could not find track: \"" ++ q ++ "\"",
            PStatus.resolving, true⟩)
    ∧ (∀ (q m : String) (ti : Except String TrackInfo) (s : PipelineState),
      (runResolvingStage s (resolveTrack q (.error m) ti)).status = PStatus.failed
      ∧ (runResolvingStage s (resolveTrack q (.error m) ti)).error =
          some ⟨"PIPELINE_ERROR", m, PStatus.resolving, true⟩) :=
  ⟨fun _ _ _ => ⟨rfl, rfl⟩, fun _ _ _ _ => ⟨rfl, rfl⟩⟩

/--
C8 counterexample: a seed query with zero search results produces a typed
error whose `retryable` flag is `true`, not `false` as the claim states for
"track not found".
-/
theorem resolver_not_found_marked_retryable :
    ((runResolvingStage pendingRunState
        (resolveTrack "Unknown Song" (.ok []) (.error "unused"))).error).map
      PError.retryable = some true
    ∧ ¬ (((runResolvingStage pendingRunState
        (resolveTrack "Unknown Song" (.ok []) (.error "unused"))).error).map
      PError.retryable = some false) := by
  decide

/--
C9 (amended): a failure of the similar-tracks lookup degrades to an empty
`similarTracks` list and never fails the Enricher stage (the result equals
that of a successful empty response); but a failure of the tag/info lookup,
or of the artist-info lookup, propagates and fails the stage.
-/
theorem enrich_degrades_only_similar_tracks :
    (∀ (track : ResolvedTrack) (ti : TrackInfo) (ai : ArtistInfo) (e : String),
      enrichTrack track (.ok ti) (.error e) (.ok ai) =
        enrichTrack track (.ok ti) (.ok []) (.ok ai))
    ∧ (∀ (track : ResolvedTrack) (ti : TrackInfo) (ai : ArtistInfo) (e : String),
      enrichTrack track (.ok ti) (.error e) (.ok ai) =
        .ok { base := track
              tags := (ti.toptags.getD []).map mkTag
              similarTracks := []
              similarArtists := ai.similar.getD []
              playcount := ti.playcount
              topListeners := ti.listeners })
    ∧ (∀ (track : ResolvedTrack) (st : Except String (List SimTrack))
        (ai : Except String ArtistInfo) (e : String),
      enrichTrack track (.error e) st ai = .error e)
    ∧ (∀ (track : ResolvedTrack) (ti : TrackInfo)
        (st : Except String (List SimTrack)) (e : String),
      enrichTrack track (.ok ti) st (.error e) = .error e) :=
  ⟨fun _ _ _ _ => rfl, fun _ _ _ _ => rfl, fun _ _ _ _ => rfl,
    fun _ _ _ _ => rfl⟩

/--
C9 counterexample: a failing tag/info lookup (with the other two calls
succeeding) makes the Enricher stage itself fail, refuting "no individual
call failure causes the Enricher stage itself to fail".
-/
theorem enrich_info_failure_fails_stage :
    enrichTrack exResolved (.error "Last.fm API error: 500") (.ok [])
        (.ok ⟨some []⟩) =
      .error "Last.fm API error: 500" :=
  rfl

/--
C7: cancelling a run that is mid-`generating` transitions it to `failed`
with code `CANCELLED` and `retryable = false`, but the recorded error's
`stage` field is `failed` — not `generating`, the stage the run was in —
because the source assigns `status = 'failed'` before reading `status` into
the error object.
-/
theorem cancel_mid_run_records_failed_as_stage :
    (cancelPipeline midRunState).status = PStatus.failed
    ∧ (cancelPipeline midRunState).error =
        some ⟨"CANCELLED", "Pipeline cancelled by user", PStatus.failed, false⟩
    ∧ ¬ ((cancelPipeline midRunState).error).map PError.stage =
        some PStatus.generating := by
  decide

/--
C10: the poll-once status response carries the playlist field exactly when
the persisted status is `complete`; for every other status the field is
omitted (and when present it is exactly the stored final playlist).
-/
theorem status_playlist_iff_complete (s : PipelineState) :
    ((getStatusResponse s).playlist.isSome ↔ s.status = .complete)
    ∧ ((getStatusResponse s).playlist = some s.finalPlaylist ∨
        (getStatusResponse s).playlist = none) := by
  unfold getStatusResponse
  by_cases h : s.status = .complete <;> simp [h]

end GroveMusic
